import Mathlib

/-!
Verification of the HORMIGON_ML prediction/validation/classification pipeline.

The development shallowly embeds the core pipeline of the repository:
`model_handler.py` (the original handler) and `model_handler_fixed.py`
(the variant actually imported by `predictor_gui.py`), together with the
relevant helpers of `utils.py`.

Modelling conventions:
- Python floats are modelled as rationals.  NaN and infinity cannot arise in
  this embedding; the code paths that test for them (`np.isnan`, `np.isinf`)
  can therefore never fire and are recorded as comments at the corresponding
  places.
- Python dicts are modelled as association lists in insertion order
  (Python 3.7+ dicts preserve insertion order, which matters for the order
  of reported range violations).
- The trained scikit-learn artifact is opaque: it is a parameter
  `model : List Rat -> Rat` consuming the positional feature vector.
- `datetime.now().isoformat()` is an effect; it is passed explicitly as the
  `now : String` argument and stored in the result's `timestamp` field.
- Exceptions are modelled with `Except`; `round(x, n)` is modelled as exact
  round-half-to-even on rationals (`pyRound`).
-/

namespace HormigonML

/-- Mix-design input: an ordered mapping from feature names to numeric
values, in the caller's insertion order. -/
abbrev MixInput := List (String × ℚ)

/-- Canonical ordered feature list, hardcoded in
model_handler_fixed.py lines 54-63; model_handler.py reads the identical
list from the metadata key variables_entrada (spec section 6). -/
def feature_names : List String :=
  [ "Cemento_kg_m3"
  , "Escoria_Alto_Horno_kg_m3"
  , "Ceniza_Volante_kg_m3"
  , "Agua_kg_m3"
  , "Superplastificante_kg_m3"
  , "Agregado_Grueso_kg_m3"
  , "Agregado_Fino_kg_m3"
  , "Edad_dias" ]

/-- VALID_RANGES of model_handler.py lines 26-35. -/
def VALID_RANGES : List (String × ℚ × ℚ) :=
  [ ("Cemento_kg_m3", 150, 500)
  , ("Escoria_Alto_Horno_kg_m3", 0, 300)
  , ("Ceniza_Volante_kg_m3", 0, 200)
  , ("Agua_kg_m3", 130, 220)
  , ("Superplastificante_kg_m3", 0, 25)
  , ("Agregado_Grueso_kg_m3", 850, 1100)
  , ("Agregado_Fino_kg_m3", 650, 900)
  , ("Edad_dias", 1, 365) ]

/-- VALID_RANGES of model_handler_fixed.py lines 26-35. -/
def VALID_RANGES_FIXED : List (String × ℚ × ℚ) :=
  [ ("Cemento_kg_m3", 102, 540)
  , ("Escoria_Alto_Horno_kg_m3", 0, 359)
  , ("Ceniza_Volante_kg_m3", 0, 200)
  , ("Agua_kg_m3", 122, 247)
  , ("Superplastificante_kg_m3", 0, 32)
  , ("Agregado_Grueso_kg_m3", 801, 1145)
  , ("Agregado_Fino_kg_m3", 594, 993)
  , ("Edad_dias", 1, 365) ]

/-- A classification band: a lower bound and an optional upper bound
(none models float infinity), with a (label, color, description) triple. -/
abbrev NecBand := (ℚ × Option ℚ) × (String × String × String)

/-- NEC_CLASSIFICATION of model_handler.py lines 38-43. -/
def NEC_CLASSIFICATION : List NecBand :=
  [ ((0, some 210), ("Baja Resistencia", "#ef4444", "Uso estructural limitado"))
  , ((210, some 280), ("Resistencia Normal", "#f97316", "Uso estructural común"))
  , ((280, some 420), ("Alta Resistencia", "#22c55e", "Estructuras exigentes"))
  , ((420, none), ("Ultra Alta Resistencia", "#3b82f6", "Estructuras especiales")) ]

/-- NEC_CLASSIFICATION of model_handler_fixed.py lines 38-43 (the low
boundary between the first two bands is 140 there, not 210). -/
def NEC_CLASSIFICATION_FIXED : List NecBand :=
  [ ((0, some 140), ("Baja Resistencia", "#ef4444", "Uso estructural limitado"))
  , ((140, some 280), ("Resistencia Normal", "#f97316", "Uso estructural común"))
  , ((280, some 420), ("Alta Resistencia", "#22c55e", "Estructuras exigentes"))
  , ((420, none), ("Ultra Alta Resistencia", "#3b82f6", "Estructuras especiales")) ]

/-- Membership of a strength value in a band, the loop condition
min_val <= strength < max_val of _classify_nec (a finite rational is
always below the float-infinity upper bound of the last band). -/
def bandContains (band : NecBand) (strength : ℚ) : Bool :=
  decide (band.1.1 ≤ strength) &&
    (match band.1.2 with
     | some hi => decide (strength < hi)
     | none => true)

/-- Generic first-match scan of a band table with the fallback triple of
_classify_nec (model_handler.py lines 227-232). -/
def classifyWith (table : List NecBand) (strength : ℚ) : String × String × String :=
  match table.find? (fun band => bandContains band strength) with
  | some band => band.2
  | none => ("Sin Clasificar", "#6b7280", "Valor fuera de rangos estándar")

/-- The method _classify_nec of model_handler.py lines 217-232. -/
def classify_nec (strength : ℚ) : String × String × String :=
  classifyWith NEC_CLASSIFICATION strength

/-- The method _classify_nec of model_handler_fixed.py lines 202-208. -/
def classify_nec_fixed (strength : ℚ) : String × String × String :=
  classifyWith NEC_CLASSIFICATION_FIXED strength

/-- A human-readable violation reported by validate_inputs.  The Python code
produces formatted strings; the embedding keeps the data those strings carry. -/
inductive Violation where
  | missing (feature : String)
  | outOfRange (feature : String) (value lo hi : ℚ)
deriving DecidableEq, Repr

/-- Feature a violation talks about (the leading name in the formatted
Python message). -/
def Violation.feature : Violation → String
  | .missing f => f
  | .outOfRange f _ _ _ => f

/-- Range check of one input item, the loop body of validate_inputs
(model_handler.py lines 136-140): items whose key has no recorded range are
skipped. -/
def rangeCheck (p : String × ℚ) : Option Violation :=
  match VALID_RANGES.lookup p.1 with
  | some r => if r.1 ≤ p.2 ∧ p.2 ≤ r.2 then none else some (.outOfRange p.1 p.2 r.1 r.2)
  | none => none

/-- Error list built by validate_inputs of model_handler.py lines 128-140:
missing-feature messages are collected first, iterating the canonical
feature list; then range messages, iterating the caller's input mapping. -/
def validationErrors (inputs : MixInput) : List Violation :=
  (feature_names.filter (fun f => (inputs.lookup f).isNone)).map Violation.missing
    ++ inputs.filterMap rangeCheck

/-- The method validate_inputs of model_handler.py lines 118-142 (strict
mode): returns (len(errors) == 0, errors). -/
def validate_inputs (inputs : MixInput) : Bool × List Violation :=
  ((validationErrors inputs).isEmpty, validationErrors inputs)

/-- Range check of one input item in model_handler_fixed.py lines 127-136:
the recorded range is widened by 10 percent of its width (clamped at 0 below)
before checking. -/
def rangeCheckFixed (p : String × ℚ) : Option Violation :=
  match VALID_RANGES_FIXED.lookup p.1 with
  | some r =>
    let margin := (r.2 - r.1) * (1 / 10)
    let extendedMin := max 0 (r.1 - margin)
    let extendedMax := r.2 + margin
    if extendedMin ≤ p.2 ∧ p.2 ≤ extendedMax then none
    else some (.outOfRange p.1 p.2 extendedMin extendedMax)
  | none => none

/-- Error list built by validate_inputs of model_handler_fixed.py
lines 119-136. -/
def validationErrorsFixed (inputs : MixInput) : List Violation :=
  (feature_names.filter (fun f => (inputs.lookup f).isNone)).map Violation.missing
    ++ inputs.filterMap rangeCheckFixed

/-- The method validate_inputs of model_handler_fixed.py lines 117-138
(permissive ranges; its caller never blocks on the verdict). -/
def validate_inputs_fixed (inputs : MixInput) : Bool × List Violation :=
  ((validationErrorsFixed inputs).isEmpty, validationErrorsFixed inputs)

/-- Round half to even at integer precision: the semantics of the Python
built-in round on an exactly represented value. -/
def roundHalfEven (x : ℚ) : ℤ :=
  if x - ⌊x⌋ = 1 / 2 then (if Even ⌊x⌋ then ⌊x⌋ else ⌊x⌋ + 1) else round x

/-- Python round(x, ndigits) on rationals. -/
def pyRound (x : ℚ) (ndigits : ℕ) : ℚ :=
  (roundHalfEven (x * 10 ^ ndigits) : ℚ) / 10 ^ ndigits

/-- Errors surfaced by the prediction path.  invalidInputs models the
ValueError raised on failed strict validation, keyError the Python KeyError
on a missing dict key, invalidNumeric the negative-feature ValueError of
model_handler.py line 173, divisionByZero the Python ZeroDivisionError. -/
inductive PredictError where
  | invalidInputs (errors : List Violation)
  | keyError (feature : String)
  | invalidNumeric
  | divisionByZero
deriving DecidableEq, Repr

/-- The result record assembled by predict_strength (model_handler.py
lines 198-208 and model_handler_fixed.py lines 183-193). -/
structure PredictionResult where
  resistencia_predicha_kg_cm2 : ℚ
  relacion_agua_cemento : ℚ
  total_cementicios_kg_m3 : ℚ
  clasificacion_nec : String
  color_clasificacion : String
  descripcion_nec : String
  confianza_prediccion : ℚ
  edad_ensayo_dias : ℚ
  timestamp : String
deriving DecidableEq, Repr

instance {ε α : Type} [DecidableEq ε] [DecidableEq α] : DecidableEq (Except ε α) :=
  fun a b =>
    match a, b with
    | .ok x, .ok y => decidable_of_iff (x = y) (by simp)
    | .error x, .error y => decidable_of_iff (x = y) (by simp)
    | .ok _, .error _ => isFalse (by simp)
    | .error _, .ok _ => isFalse (by simp)

/-- The list comprehension building the positional feature vector
(model_handler.py line 164): a missing key raises KeyError at the first
absent feature. -/
def lookupAll (inputs : MixInput) : List String → Except PredictError (List ℚ)
  | [] => .ok []
  | f :: fs =>
    match inputs.lookup f with
    | none => .error (.keyError f)
    | some v => (lookupAll inputs fs).map (fun vs => v :: vs)

/-- Confidence formula of model_handler.py line 196:
max(0.6, min(0.95, 1 - estabilidad * 10)). -/
def confidence_formula (estabilidad : ℚ) : ℚ :=
  max (3 / 5) (min (19 / 20) (1 - estabilidad * 10))

/-- Confidence formula of model_handler_fixed.py line 181:
max(0.7, min(0.95, 1 - estabilidad)). -/
def confidence_formula_fixed (estabilidad : ℚ) : ℚ :=
  max (7 / 10) (min (19 / 20) (1 - estabilidad))

/-- The method predict_strength of model_handler.py lines 144-211, for a
handler whose artifact loaded (is_loaded = True); `model` is the opaque
artifact, `estabilidad` the metadata metric, `now` the completion clock
reading.  The NaN/infinity checks of lines 168 and 179 cannot fire over
rationals; the out-of-[5,1000] check of line 183 only logs a warning. -/
def predict_strength (model : List ℚ → ℚ) (estabilidad : ℚ) (now : String)
    (inputs : MixInput) : Except PredictError PredictionResult :=
  if (validate_inputs inputs).1 = false then .error (.invalidInputs (validate_inputs inputs).2)
  else
    match lookupAll inputs feature_names with
    | .error e => .error e
    | .ok xs =>
      if xs.any (fun x => decide (x < 0)) then .error .invalidNumeric
      else
        match inputs.lookup "Agua_kg_m3", inputs.lookup "Cemento_kg_m3",
              inputs.lookup "Escoria_Alto_Horno_kg_m3",
              inputs.lookup "Ceniza_Volante_kg_m3",
              inputs.lookup "Edad_dias" with
        | some agua, some cemento, some escoria, some ceniza, some edad =>
          if cemento = 0 then .error .divisionByZero
          else
            .ok { resistencia_predicha_kg_cm2 := pyRound (model xs) 2
                , relacion_agua_cemento := pyRound (agua / cemento) 3
                , total_cementicios_kg_m3 := pyRound (cemento + escoria + ceniza) 1
                , clasificacion_nec := (classify_nec (model xs)).1
                , color_clasificacion := (classify_nec (model xs)).2.1
                , descripcion_nec := (classify_nec (model xs)).2.2
                , confianza_prediccion := pyRound (confidence_formula estabilidad) 3
                , edad_ensayo_dias := edad
                , timestamp := now }
        | _, _, _, _, _ => .error (.keyError "Agua_kg_m3")

/-- Corrected prediction of model_handler_fixed.py lines 166-169: a negative
raw model output is replaced by its absolute value. -/
def correctNegative (raw : ℚ) : ℚ :=
  if raw < 0 then |raw| else raw

/-- The method predict_strength of model_handler_fixed.py lines 140-200:
validation is computed but only logged (lines 146-149, never blocking); a
negative raw prediction is replaced by its absolute value (lines 167-169);
there is no negative-feature check. -/
def predict_strength_fixed (model : List ℚ → ℚ) (estabilidad : ℚ) (now : String)
    (inputs : MixInput) : Except PredictError PredictionResult :=
  match lookupAll inputs feature_names with
  | .error e => .error e
  | .ok xs =>
    match inputs.lookup "Agua_kg_m3", inputs.lookup "Cemento_kg_m3",
          inputs.lookup "Escoria_Alto_Horno_kg_m3",
          inputs.lookup "Ceniza_Volante_kg_m3",
          inputs.lookup "Edad_dias" with
    | some agua, some cemento, some escoria, some ceniza, some edad =>
      if cemento = 0 then .error .divisionByZero
      else
        .ok { resistencia_predicha_kg_cm2 := pyRound (correctNegative (model xs)) 2
            , relacion_agua_cemento := pyRound (agua / cemento) 3
            , total_cementicios_kg_m3 := pyRound (cemento + escoria + ceniza) 1
            , clasificacion_nec := (classify_nec_fixed (correctNegative (model xs))).1
            , color_clasificacion := (classify_nec_fixed (correctNegative (model xs))).2.1
            , descripcion_nec := (classify_nec_fixed (correctNegative (model xs))).2.2
            , confianza_prediccion := pyRound (confidence_formula_fixed estabilidad) 3
            , edad_ensayo_dias := edad
            , timestamp := now }
    | _, _, _, _, _ => .error (.keyError "Agua_kg_m3")

/-- The helper get_nec_color of utils.py lines 111-128. -/
def get_nec_color (resistance : ℚ) : String :=
  if resistance < 210 then "#ef4444"
  else if resistance < 280 then "#f97316"
  else if resistance < 420 then "#22c55e"
  else "#3b82f6"

/-- The helper calculate_water_cement_ratio of utils.py lines 164-179: it
silently reports 0 when cement = 0 (unlike the core prediction path). -/
def calculate_water_cement_ratio (water cement : ℚ) : ℚ :=
  if cement = 0 then 0 else water / cement

/-- The helper calculate_total_cementitious of utils.py lines 182-195. -/
def calculate_total_cementitious (cement slag fly_ash : ℚ) : ℚ :=
  cement + slag + fly_ash

/-- The preset "C20 - Uso General" of get_preset_mixes
(model_handler.py lines 284-293). -/
def presetC20 : MixInput :=
  [ ("Cemento_kg_m3", 280)
  , ("Escoria_Alto_Horno_kg_m3", 70)
  , ("Ceniza_Volante_kg_m3", 0)
  , ("Agua_kg_m3", 175)
  , ("Superplastificante_kg_m3", 5 / 2)
  , ("Agregado_Grueso_kg_m3", 950)
  , ("Agregado_Fino_kg_m3", 750)
  , ("Edad_dias", 28) ]

/-- The preset "C25 - Estructural" of get_preset_mixes
(model_handler.py lines 294-303). -/
def presetC25 : MixInput :=
  [ ("Cemento_kg_m3", 320)
  , ("Escoria_Alto_Horno_kg_m3", 80)
  , ("Ceniza_Volante_kg_m3", 20)
  , ("Agua_kg_m3", 165)
  , ("Superplastificante_kg_m3", 4)
  , ("Agregado_Grueso_kg_m3", 975)
  , ("Agregado_Fino_kg_m3", 775)
  , ("Edad_dias", 28) ]

/-- Boundary predicate used to state claim C3: every input item whose key has
a recorded range sits exactly on that range's minimum or maximum. -/
def boundaryOk (p : String × ℚ) : Bool :=
  match VALID_RANGES.lookup p.1 with
  | some r => decide (p.2 = r.1) || decide (p.2 = r.2)
  | none => true

/-- Result record with the timestamp field blanked, used to state that the
prediction path is deterministic apart from the wall-clock timestamp. -/
def stripTimestamp (r : PredictionResult) : PredictionResult :=
  { r with timestamp := "" }

/-- Position of a feature in the canonical feature order. -/
def canonIndex (f : String) : ℕ :=
  feature_names.indexOf f

/-- A mix design listing water before cement, both out of range: used to
exhibit the order in which range violations are reported. -/
def waterFirstMix : MixInput :=
  [ ("Agua_kg_m3", 1000), ("Cemento_kg_m3", 1000) ]

/-- A mix design with every feature at the exact minimum of its recorded
range in model_handler.py. -/
def boundaryMixMin : MixInput :=
  [ ("Cemento_kg_m3", 150)
  , ("Escoria_Alto_Horno_kg_m3", 0)
  , ("Ceniza_Volante_kg_m3", 0)
  , ("Agua_kg_m3", 130)
  , ("Superplastificante_kg_m3", 0)
  , ("Agregado_Grueso_kg_m3", 850)
  , ("Agregado_Fino_kg_m3", 650)
  , ("Edad_dias", 1) ]

/-- A mix design missing the cement feature (and most others). -/
def missingCementMix : MixInput :=
  [ ("Agua_kg_m3", 175) ]

/-- The C20 preset with the cement content replaced by zero. -/
def cementZeroMix : MixInput :=
  [ ("Cemento_kg_m3", 0)
  , ("Escoria_Alto_Horno_kg_m3", 70)
  , ("Ceniza_Volante_kg_m3", 0)
  , ("Agua_kg_m3", 175)
  , ("Superplastificante_kg_m3", 5 / 2)
  , ("Agregado_Grueso_kg_m3", 950)
  , ("Agregado_Fino_kg_m3", 750)
  , ("Edad_dias", 28) ]

/-- The result record produced by model_handler.py's predict_strength on the
C20 preset under a constant-300 artifact with stability 0.015. -/
def c1WitnessResult : PredictionResult :=
  { resistencia_predicha_kg_cm2 := 300
  , relacion_agua_cemento := 5 / 8
  , total_cementicios_kg_m3 := 350
  , clasificacion_nec := "Alta Resistencia"
  , color_clasificacion := "#22c55e"
  , descripcion_nec := "Estructuras exigentes"
  , confianza_prediccion := 17 / 20
  , edad_ensayo_dias := 28
  , timestamp := "t" }

/-- The result record produced by model_handler_fixed.py's predict_strength
on the C20 preset under a constant-(-50) artifact with stability 0.02. -/
def c9WitnessResult : PredictionResult :=
  { resistencia_predicha_kg_cm2 := 50
  , relacion_agua_cemento := 5 / 8
  , total_cementicios_kg_m3 := 350
  , clasificacion_nec := "Baja Resistencia"
  , color_clasificacion := "#ef4444"
  , descripcion_nec := "Uso estructural limitado"
  , confianza_prediccion := 19 / 20
  , edad_ensayo_dias := 28
  , timestamp := "t" }

/-- The canonical feature vector of the C20 preset. -/
def presetC20Vector : List ℚ :=
  [280, 70, 0, 175, 5 / 2, 950, 750, 28]

/-! ### Association-list and lookup helper lemmas -/

theorem mem_of_lookup_eq_some {β : Type} {l : List (String × β)} {k : String} {v : β}
    (h : l.lookup k = some v) : (k, v) ∈ l := by
  induction l with
  | nil => simp [List.lookup] at h
  | cons p tl ih =>
    rw [List.lookup] at h
    by_cases hk : (k == p.1) = true
    · simp only [hk] at h
      cases h
      have hk2 : k = p.1 := by simpa using hk
      subst hk2
      exact List.mem_cons_self _ _
    · simp only [Bool.not_eq_true] at hk
      simp only [hk] at h
      exact List.mem_cons_of_mem _ (ih h)

theorem lookupAll_ok_of_forall {inputs : MixInput} :
    ∀ {fs : List String}, (∀ f ∈ fs, inputs.lookup f ≠ none) →
      ∃ xs, lookupAll inputs fs = .ok xs := by
  intro fs
  induction fs with
  | nil => exact fun _ => ⟨[], rfl⟩
  | cons f tl ih =>
    intro h
    have hf := h f (List.mem_cons_self f tl)
    match hlook : inputs.lookup f with
    | none => exact absurd hlook hf
    | some v =>
      obtain ⟨xs, hxs⟩ := ih (fun g hg => h g (List.mem_cons_of_mem f hg))
      refine ⟨v :: xs, ?_⟩
      rw [lookupAll, hlook, hxs]
      rfl

theorem lookupAll_mem {inputs : MixInput} :
    ∀ {fs : List String} {xs : List ℚ}, lookupAll inputs fs = .ok xs →
      ∀ x ∈ xs, ∃ f ∈ fs, inputs.lookup f = some x := by
  intro fs
  induction fs with
  | nil =>
    intro xs h x hx
    rw [lookupAll] at h
    cases h
    simp at hx
  | cons f tl ih =>
    intro xs h x hx
    rw [lookupAll] at h
    match hlook : inputs.lookup f with
    | none => rw [hlook] at h; cases h
    | some v =>
      rw [hlook] at h
      match htl : lookupAll inputs tl with
      | .error e => rw [htl] at h; cases h
      | .ok vs =>
        rw [htl] at h
        cases h
        rcases List.mem_cons.mp hx with hx | hx
        · exact ⟨f, List.mem_cons_self f tl, hx ▸ hlook⟩
        · obtain ⟨g, hg, hgv⟩ := ih htl x hx
          exact ⟨g, List.mem_cons_of_mem f hg, hgv⟩

theorem lookupAll_lookup {inputs : MixInput} :
    ∀ {fs : List String} {xs : List ℚ}, lookupAll inputs fs = .ok xs →
      ∀ f ∈ fs, inputs.lookup f ≠ none := by
  intro fs
  induction fs with
  | nil =>
    intro xs _ f hf
    simp at hf
  | cons g tl ih =>
    intro xs h f hf
    rw [lookupAll] at h
    match hlook : inputs.lookup g with
    | none => rw [hlook] at h; cases h
    | some v =>
      rw [hlook] at h
      match htl : lookupAll inputs tl with
      | .error e => rw [htl] at h; cases h
      | .ok vs =>
        rcases List.mem_cons.mp hf with hfg | hftl
        · subst hfg; rw [hlook]; exact fun hc => by cases hc
        · exact ih htl f hftl

/-! ### Rounding lemmas for the Python round embedding -/

theorem le_roundHalfEven {z : ℤ} {x : ℚ} (h : (z : ℚ) ≤ x) : z ≤ roundHalfEven x := by
  have hfl : z ≤ ⌊x⌋ := Int.le_floor.mpr h
  unfold roundHalfEven
  split
  · split
    · exact hfl
    · omega
  · have : ⌊x⌋ ≤ round x := by
      rw [round_eq]
      exact Int.floor_le_floor (by linarith)
    omega

theorem roundHalfEven_le {z : ℤ} {x : ℚ} (h : x ≤ (z : ℚ)) : roundHalfEven x ≤ z := by
  have hcl : ⌈x⌉ ≤ z := Int.ceil_le.mpr h
  have hfc : ⌊x⌋ ≤ ⌈x⌉ := Int.floor_le_ceil x
  unfold roundHalfEven
  split
  · next hfr =>
    have hlt : ⌊x⌋ < ⌈x⌉ := by
      rw [Int.lt_ceil]
      have hle : (⌊x⌋ : ℚ) ≤ x := Int.floor_le x
      linarith
    split
    · omega
    · omega
  · have hru : round x < ⌈x⌉ + 1 := by
      rw [round_eq]
      refine Int.floor_lt.mpr ?_
      have hxc : x ≤ (⌈x⌉ : ℚ) := Int.le_ceil x
      push_cast
      linarith
    omega

theorem abs_roundHalfEven_sub (x : ℚ) : |(roundHalfEven x : ℚ) - x| ≤ 1 / 2 := by
  unfold roundHalfEven
  split
  · next hfr =>
    split
    · rw [abs_le]
      constructor <;> linarith
    · push_cast
      rw [abs_le]
      constructor <;> linarith
  · have h := abs_sub_round x
    rw [abs_sub_comm] at h
    exact h

theorem le_pyRound {x a : ℚ} (n : ℕ) (m : ℤ) (hm : (m : ℚ) = a * 10 ^ n) (h : a ≤ x) :
    a ≤ pyRound x n := by
  unfold pyRound
  rw [le_div_iff₀ (by positivity)]
  have h1 : m ≤ roundHalfEven (x * 10 ^ n) := by
    refine le_roundHalfEven ?_
    rw [hm]
    have : (0:ℚ) ≤ 10 ^ n := by positivity
    exact mul_le_mul_of_nonneg_right h this
  calc a * 10 ^ n = (m : ℚ) := hm.symm
    _ ≤ (roundHalfEven (x * 10 ^ n) : ℚ) := by exact_mod_cast h1

theorem pyRound_le {x b : ℚ} (n : ℕ) (m : ℤ) (hm : (m : ℚ) = b * 10 ^ n) (h : x ≤ b) :
    pyRound x n ≤ b := by
  unfold pyRound
  rw [div_le_iff₀ (by positivity)]
  have h1 : roundHalfEven (x * 10 ^ n) ≤ m := by
    refine roundHalfEven_le ?_
    rw [hm]
    have : (0:ℚ) ≤ 10 ^ n := by positivity
    exact mul_le_mul_of_nonneg_right h this
  calc (roundHalfEven (x * 10 ^ n) : ℚ) ≤ (m : ℚ) := by exact_mod_cast h1
    _ = b * 10 ^ n := hm

theorem pyRound_nonneg {x : ℚ} (n : ℕ) (h : 0 ≤ x) : 0 ≤ pyRound x n :=
  le_pyRound n 0 (by push_cast; ring) h

theorem abs_pyRound_sub (x : ℚ) (n : ℕ) : |pyRound x n - x| ≤ 1 / (2 * 10 ^ n) := by
  have hpos : (0:ℚ) < 10 ^ n := by positivity
  have h := abs_roundHalfEven_sub (x * 10 ^ n)
  have heq : pyRound x n - x = ((roundHalfEven (x * 10 ^ n) : ℚ) - x * 10 ^ n) / 10 ^ n := by
    unfold pyRound
    field_simp
    ring
  rw [heq, abs_div, abs_of_pos hpos]
  rw [div_le_iff₀ hpos]
  calc |(roundHalfEven (x * 10 ^ n) : ℚ) - x * 10 ^ n| ≤ 1 / 2 := h
    _ = 1 / (2 * 10 ^ n) * 10 ^ n := by field_simp

/-! ### Characterization of the strict validator -/

theorem validationErrors_eq_nil_iff (inputs : MixInput) :
    validationErrors inputs = [] ↔
      (∀ f ∈ feature_names, inputs.lookup f ≠ none) ∧
      (∀ p ∈ inputs, rangeCheck p = none) := by
  unfold validationErrors
  rw [List.append_eq_nil, List.map_eq_nil_iff, List.filter_eq_nil_iff,
    List.filterMap_eq_nil_iff]
  simp [Option.isNone_iff_eq_none]

theorem validate_inputs_fst_true_iff (inputs : MixInput) :
    (validate_inputs inputs).1 = true ↔ validationErrors inputs = [] := by
  unfold validate_inputs
  simp [List.isEmpty_iff]

/-- Every canonical feature has a recorded range whose bounds satisfy
0 <= lo <= hi (a fact of the concrete VALID_RANGES table). -/
theorem valid_ranges_present :
    ∀ f ∈ feature_names, (VALID_RANGES.lookup f).isSome = true := by
  decide

theorem valid_ranges_bounds :
    ∀ e ∈ VALID_RANGES, 0 ≤ e.2.1 ∧ e.2.1 ≤ e.2.2 := by
  with_unfolding_all decide

/-- A value looked up for a canonical feature in a strictly valid input lies
in its recorded range. -/
theorem lookup_in_range_of_valid {inputs : MixInput} {f : String} {v lo hi : ℚ}
    (hrange : ∀ p ∈ inputs, rangeCheck p = none)
    (hlook : inputs.lookup f = some v)
    (htab : VALID_RANGES.lookup f = some (lo, hi)) :
    lo ≤ v ∧ v ≤ hi := by
  have hmem : (f, v) ∈ inputs := mem_of_lookup_eq_some hlook
  have hrc := hrange (f, v) hmem
  rw [rangeCheck] at hrc
  simp only at hrc
  split at hrc
  · next r heq =>
    rw [htab] at heq
    injection heq with heq2
    subst heq2
    split at hrc
    · next hin => exact hin
    · cases hrc
  · next heq => rw [htab] at heq; cases heq

/-- Under a strictly valid input every canonical feature value is present and
non-negative. -/
theorem lookup_nonneg_of_valid {inputs : MixInput} {f : String} {v : ℚ}
    (hrange : ∀ p ∈ inputs, rangeCheck p = none)
    (hf : f ∈ feature_names)
    (hlook : inputs.lookup f = some v) : 0 ≤ v := by
  have hsome := valid_ranges_present f hf
  match htab : VALID_RANGES.lookup f with
  | none => rw [htab] at hsome; cases hsome
  | some r =>
    have hb := valid_ranges_bounds (f, r) (mem_of_lookup_eq_some htab)
    have hin := lookup_in_range_of_valid hrange hlook htab
    calc (0:ℚ) ≤ r.1 := hb.1
      _ ≤ v := hin.1

/-! ### Run and inversion lemmas for the two predictors -/

theorem predict_strength_eq_ok (model : List ℚ → ℚ) (σ : ℚ) (now : String)
    (inputs : MixInput) {xs : List ℚ} {agua cemento escoria ceniza edad : ℚ}
    (hvalid : (validate_inputs inputs).1 = true)
    (hxs : lookupAll inputs feature_names = .ok xs)
    (hneg : xs.any (fun x => decide (x < 0)) = false)
    (hagua : inputs.lookup "Agua_kg_m3" = some agua)
    (hcem : inputs.lookup "Cemento_kg_m3" = some cemento)
    (hesc : inputs.lookup "Escoria_Alto_Horno_kg_m3" = some escoria)
    (hcen : inputs.lookup "Ceniza_Volante_kg_m3" = some ceniza)
    (hedad : inputs.lookup "Edad_dias" = some edad)
    (hc0 : ¬cemento = 0) :
    predict_strength model σ now inputs =
      .ok { resistencia_predicha_kg_cm2 := pyRound (model xs) 2
          , relacion_agua_cemento := pyRound (agua / cemento) 3
          , total_cementicios_kg_m3 := pyRound (cemento + escoria + ceniza) 1
          , clasificacion_nec := (classify_nec (model xs)).1
          , color_clasificacion := (classify_nec (model xs)).2.1
          , descripcion_nec := (classify_nec (model xs)).2.2
          , confianza_prediccion := pyRound (confidence_formula σ) 3
          , edad_ensayo_dias := edad
          , timestamp := now } := by
  unfold predict_strength
  rw [hvalid, hxs, hagua, hcem, hesc, hcen, hedad]
  simp [hneg, hc0]

theorem predict_strength_fixed_eq_ok (model : List ℚ → ℚ) (σ : ℚ) (now : String)
    (inputs : MixInput) {xs : List ℚ} {agua cemento escoria ceniza edad : ℚ}
    (hxs : lookupAll inputs feature_names = .ok xs)
    (hagua : inputs.lookup "Agua_kg_m3" = some agua)
    (hcem : inputs.lookup "Cemento_kg_m3" = some cemento)
    (hesc : inputs.lookup "Escoria_Alto_Horno_kg_m3" = some escoria)
    (hcen : inputs.lookup "Ceniza_Volante_kg_m3" = some ceniza)
    (hedad : inputs.lookup "Edad_dias" = some edad)
    (hc0 : ¬cemento = 0) :
    predict_strength_fixed model σ now inputs =
      .ok { resistencia_predicha_kg_cm2 := pyRound (correctNegative (model xs)) 2
          , relacion_agua_cemento := pyRound (agua / cemento) 3
          , total_cementicios_kg_m3 := pyRound (cemento + escoria + ceniza) 1
          , clasificacion_nec := (classify_nec_fixed (correctNegative (model xs))).1
          , color_clasificacion := (classify_nec_fixed (correctNegative (model xs))).2.1
          , descripcion_nec := (classify_nec_fixed (correctNegative (model xs))).2.2
          , confianza_prediccion := pyRound (confidence_formula_fixed σ) 3
          , edad_ensayo_dias := edad
          , timestamp := now } := by
  unfold predict_strength_fixed
  rw [hxs, hagua, hcem, hesc, hcen, hedad]
  simp [hc0]

theorem predict_strength_ok_inv {model : List ℚ → ℚ} {σ : ℚ} {now : String}
    {inputs : MixInput} {r : PredictionResult}
    (h : predict_strength model σ now inputs = .ok r) :
    ∃ xs agua cemento escoria ceniza edad,
      (validate_inputs inputs).1 = true ∧
      lookupAll inputs feature_names = .ok xs ∧
      inputs.lookup "Agua_kg_m3" = some agua ∧
      inputs.lookup "Cemento_kg_m3" = some cemento ∧
      inputs.lookup "Escoria_Alto_Horno_kg_m3" = some escoria ∧
      inputs.lookup "Ceniza_Volante_kg_m3" = some ceniza ∧
      inputs.lookup "Edad_dias" = some edad ∧
      cemento ≠ 0 ∧
      r = { resistencia_predicha_kg_cm2 := pyRound (model xs) 2
          , relacion_agua_cemento := pyRound (agua / cemento) 3
          , total_cementicios_kg_m3 := pyRound (cemento + escoria + ceniza) 1
          , clasificacion_nec := (classify_nec (model xs)).1
          , color_clasificacion := (classify_nec (model xs)).2.1
          , descripcion_nec := (classify_nec (model xs)).2.2
          , confianza_prediccion := pyRound (confidence_formula σ) 3
          , edad_ensayo_dias := edad
          , timestamp := now } := by
  unfold predict_strength at h
  split at h
  · cases h
  · next hval =>
    have hvalid : (validate_inputs inputs).1 = true := by
      cases hb : (validate_inputs inputs).1
      · exact absurd hb hval
      · rfl
    split at h
    · cases h
    · next xs hxs =>
      split at h
      · cases h
      · next hneg =>
        split at h
        · next agua cemento escoria ceniza edad hagua hcem hesc hcen hedad =>
          split at h
          · cases h
          · next hc0 =>
            cases h
            exact ⟨xs, agua, cemento, escoria, ceniza, edad, hvalid, hxs,
              hagua, hcem, hesc, hcen, hedad, hc0, rfl⟩
        · cases h

theorem predict_strength_fixed_ok_inv {model : List ℚ → ℚ} {σ : ℚ} {now : String}
    {inputs : MixInput} {r : PredictionResult}
    (h : predict_strength_fixed model σ now inputs = .ok r) :
    ∃ xs agua cemento escoria ceniza edad,
      lookupAll inputs feature_names = .ok xs ∧
      inputs.lookup "Agua_kg_m3" = some agua ∧
      inputs.lookup "Cemento_kg_m3" = some cemento ∧
      inputs.lookup "Escoria_Alto_Horno_kg_m3" = some escoria ∧
      inputs.lookup "Ceniza_Volante_kg_m3" = some ceniza ∧
      inputs.lookup "Edad_dias" = some edad ∧
      cemento ≠ 0 ∧
      r = { resistencia_predicha_kg_cm2 := pyRound (correctNegative (model xs)) 2
          , relacion_agua_cemento := pyRound (agua / cemento) 3
          , total_cementicios_kg_m3 := pyRound (cemento + escoria + ceniza) 1
          , clasificacion_nec := (classify_nec_fixed (correctNegative (model xs))).1
          , color_clasificacion := (classify_nec_fixed (correctNegative (model xs))).2.1
          , descripcion_nec := (classify_nec_fixed (correctNegative (model xs))).2.2
          , confianza_prediccion := pyRound (confidence_formula_fixed σ) 3
          , edad_ensayo_dias := edad
          , timestamp := now } := by
  unfold predict_strength_fixed at h
  split at h
  · cases h
  · next xs hxs =>
    split at h
    · next agua cemento escoria ceniza edad hagua hcem hesc hcen hedad =>
      split at h
      · cases h
      · next hc0 =>
        cases h
        exact ⟨xs, agua, cemento, escoria, ceniza, edad, hxs,
          hagua, hcem, hesc, hcen, hedad, hc0, rfl⟩
    · cases h

/-! ### Region evaluation of the two classifiers -/

theorem classify_nec_eval_neg {s : ℚ} (h : s < 0) :
    classify_nec s = ("Sin Clasificar", "#6b7280", "Valor fuera de rangos estándar") := by
  have h0 : ¬(0:ℚ) ≤ s := not_le.mpr h
  have h210 : ¬(210:ℚ) ≤ s := fun hc => h0 (le_trans (by norm_num) hc)
  have h280 : ¬(280:ℚ) ≤ s := fun hc => h0 (le_trans (by norm_num) hc)
  have h420 : ¬(420:ℚ) ≤ s := fun hc => h0 (le_trans (by norm_num) hc)
  simp [classify_nec, classifyWith, NEC_CLASSIFICATION, List.find?, bandContains,
    h0, h210, h280, h420]

theorem classify_nec_eval₀ {s : ℚ} (h0 : 0 ≤ s) (h1 : s < 210) :
    classify_nec s = ("Baja Resistencia", "#ef4444", "Uso estructural limitado") := by
  simp [classify_nec, classifyWith, NEC_CLASSIFICATION, List.find?, bandContains, h0, h1]

theorem classify_nec_eval₁ {s : ℚ} (h1 : 210 ≤ s) (h2 : s < 280) :
    classify_nec s = ("Resistencia Normal", "#f97316", "Uso estructural común") := by
  have h0 : (0:ℚ) ≤ s := le_trans (by norm_num) h1
  have hn210 : ¬ s < 210 := not_lt.mpr h1
  simp [classify_nec, classifyWith, NEC_CLASSIFICATION, List.find?, bandContains,
    h0, h1, h2, hn210]

theorem classify_nec_eval₂ {s : ℚ} (h2 : 280 ≤ s) (h3 : s < 420) :
    classify_nec s = ("Alta Resistencia", "#22c55e", "Estructuras exigentes") := by
  have h0 : (0:ℚ) ≤ s := le_trans (by norm_num) h2
  have hn210 : ¬ s < 210 := not_lt.mpr (le_trans (by norm_num) h2)
  have hn280 : ¬ s < 280 := not_lt.mpr h2
  simp [classify_nec, classifyWith, NEC_CLASSIFICATION, List.find?, bandContains,
    h0, h2, h3, hn210, hn280]

theorem classify_nec_eval₃ {s : ℚ} (h4 : 420 ≤ s) :
    classify_nec s = ("Ultra Alta Resistencia", "#3b82f6", "Estructuras especiales") := by
  have h0 : (0:ℚ) ≤ s := le_trans (by norm_num) h4
  have hn210 : ¬ s < 210 := not_lt.mpr (le_trans (by norm_num) h4)
  have hn280 : ¬ s < 280 := not_lt.mpr (le_trans (by norm_num) h4)
  have hn420 : ¬ s < 420 := not_lt.mpr h4
  simp [classify_nec, classifyWith, NEC_CLASSIFICATION, List.find?, bandContains,
    h0, h4, hn210, hn280, hn420]

theorem classify_nec_fixed_eval_neg {s : ℚ} (h : s < 0) :
    classify_nec_fixed s = ("Sin Clasificar", "#6b7280", "Valor fuera de rangos estándar") := by
  have h0 : ¬(0:ℚ) ≤ s := not_le.mpr h
  have h140 : ¬(140:ℚ) ≤ s := fun hc => h0 (le_trans (by norm_num) hc)
  have h280 : ¬(280:ℚ) ≤ s := fun hc => h0 (le_trans (by norm_num) hc)
  have h420 : ¬(420:ℚ) ≤ s := fun hc => h0 (le_trans (by norm_num) hc)
  simp [classify_nec_fixed, classifyWith, NEC_CLASSIFICATION_FIXED, List.find?, bandContains,
    h0, h140, h280, h420]

theorem classify_nec_fixed_eval₀ {s : ℚ} (h0 : 0 ≤ s) (h1 : s < 140) :
    classify_nec_fixed s = ("Baja Resistencia", "#ef4444", "Uso estructural limitado") := by
  simp [classify_nec_fixed, classifyWith, NEC_CLASSIFICATION_FIXED, List.find?, bandContains,
    h0, h1]

theorem classify_nec_fixed_eval₁ {s : ℚ} (h1 : 140 ≤ s) (h2 : s < 280) :
    classify_nec_fixed s = ("Resistencia Normal", "#f97316", "Uso estructural común") := by
  have h0 : (0:ℚ) ≤ s := le_trans (by norm_num) h1
  have hn140 : ¬ s < 140 := not_lt.mpr h1
  simp [classify_nec_fixed, classifyWith, NEC_CLASSIFICATION_FIXED, List.find?, bandContains,
    h0, h1, h2, hn140]

theorem classify_nec_fixed_eval₂ {s : ℚ} (h2 : 280 ≤ s) (h3 : s < 420) :
    classify_nec_fixed s = ("Alta Resistencia", "#22c55e", "Estructuras exigentes") := by
  have h0 : (0:ℚ) ≤ s := le_trans (by norm_num) h2
  have hn140 : ¬ s < 140 := not_lt.mpr (le_trans (by norm_num) h2)
  have hn280 : ¬ s < 280 := not_lt.mpr h2
  simp [classify_nec_fixed, classifyWith, NEC_CLASSIFICATION_FIXED, List.find?, bandContains,
    h0, h2, h3, hn140, hn280]

theorem classify_nec_fixed_eval₃ {s : ℚ} (h4 : 420 ≤ s) :
    classify_nec_fixed s = ("Ultra Alta Resistencia", "#3b82f6", "Estructuras especiales") := by
  have h0 : (0:ℚ) ≤ s := le_trans (by norm_num) h4
  have hn140 : ¬ s < 140 := not_lt.mpr (le_trans (by norm_num) h4)
  have hn280 : ¬ s < 280 := not_lt.mpr (le_trans (by norm_num) h4)
  have hn420 : ¬ s < 420 := not_lt.mpr h4
  simp [classify_nec_fixed, classifyWith, NEC_CLASSIFICATION_FIXED, List.find?, bandContains,
    h0, h4, hn140, hn280, hn420]

/-! ### Claim theorems -/

/-- Claim C2: for every non-negative (finite) strength value, exactly one
band of the classification table contains it, the classifier returns exactly
that band's (label, color, description) triple, and in particular a value
equal to a band's lower bound classifies into that band and not the band
below.  Stated for the band tables of both model_handler.py and
model_handler_fixed.py. -/
theorem nec_classifier_total_c2 :
    (∀ s : ℚ, 0 ≤ s →
      NEC_CLASSIFICATION.countP (fun b => bandContains b s) = 1 ∧
      ∀ b ∈ NEC_CLASSIFICATION, bandContains b s = true → classify_nec s = b.2) ∧
    (∀ s : ℚ, 0 ≤ s →
      NEC_CLASSIFICATION_FIXED.countP (fun b => bandContains b s) = 1 ∧
      ∀ b ∈ NEC_CLASSIFICATION_FIXED, bandContains b s = true → classify_nec_fixed s = b.2) := by
  constructor
  · intro s h0
    rcases lt_or_le s 210 with h1 | h1
    · have hn210 : ¬(210:ℚ) ≤ s := not_le.mpr h1
      have hn280 : ¬(280:ℚ) ≤ s := fun hc => hn210 (le_trans (by norm_num) hc)
      have hn420 : ¬(420:ℚ) ≤ s := fun hc => hn210 (le_trans (by norm_num) hc)
      refine ⟨by simp [NEC_CLASSIFICATION, bandContains, h0, h1, hn210, hn280, hn420], ?_⟩
      intro b hb hcont
      fin_cases hb
      · exact classify_nec_eval₀ h0 h1
      · simp [bandContains, hn210] at hcont
      · simp [bandContains, hn280] at hcont
      · simp [bandContains, hn420] at hcont
    · rcases lt_or_le s 280 with h2 | h2
      · have hn1 : ¬ s < 210 := not_lt.mpr h1
        have hn280 : ¬(280:ℚ) ≤ s := not_le.mpr h2
        have hn420 : ¬(420:ℚ) ≤ s := fun hc => hn280 (le_trans (by norm_num) hc)
        refine ⟨by simp [NEC_CLASSIFICATION, bandContains, h0, h1, h2, hn1, hn280, hn420], ?_⟩
        intro b hb hcont
        fin_cases hb
        · simp [bandContains, hn1] at hcont
        · exact classify_nec_eval₁ h1 h2
        · simp [bandContains, hn280] at hcont
        · simp [bandContains, hn420] at hcont
      · rcases lt_or_le s 420 with h3 | h3
        · have hn1 : ¬ s < 210 := not_lt.mpr (le_trans (by norm_num) h2)
          have hn2 : ¬ s < 280 := not_lt.mpr h2
          have hn420 : ¬(420:ℚ) ≤ s := not_le.mpr h3
          refine ⟨by simp [NEC_CLASSIFICATION, bandContains, h0, h2, h3, hn1, hn2, hn420], ?_⟩
          intro b hb hcont
          fin_cases hb
          · simp [bandContains, hn1] at hcont
          · simp [bandContains, hn2] at hcont
          · exact classify_nec_eval₂ h2 h3
          · simp [bandContains, hn420] at hcont
        · have hn1 : ¬ s < 210 := not_lt.mpr (le_trans (by norm_num) h3)
          have hn2 : ¬ s < 280 := not_lt.mpr (le_trans (by norm_num) h3)
          have hn3 : ¬ s < 420 := not_lt.mpr h3
          refine ⟨by simp [NEC_CLASSIFICATION, bandContains, h0, h3, hn1, hn2, hn3], ?_⟩
          intro b hb hcont
          fin_cases hb
          · simp [bandContains, hn1] at hcont
          · simp [bandContains, hn2] at hcont
          · simp [bandContains, hn3] at hcont
          · exact classify_nec_eval₃ h3
  · intro s h0
    rcases lt_or_le s 140 with h1 | h1
    · have hn140 : ¬(140:ℚ) ≤ s := not_le.mpr h1
      have hn280 : ¬(280:ℚ) ≤ s := fun hc => hn140 (le_trans (by norm_num) hc)
      have hn420 : ¬(420:ℚ) ≤ s := fun hc => hn140 (le_trans (by norm_num) hc)
      refine ⟨by simp [NEC_CLASSIFICATION_FIXED, bandContains, h0, h1, hn140, hn280, hn420], ?_⟩
      intro b hb hcont
      fin_cases hb
      · exact classify_nec_fixed_eval₀ h0 h1
      · simp [bandContains, hn140] at hcont
      · simp [bandContains, hn280] at hcont
      · simp [bandContains, hn420] at hcont
    · rcases lt_or_le s 280 with h2 | h2
      · have hn1 : ¬ s < 140 := not_lt.mpr h1
        have hn280 : ¬(280:ℚ) ≤ s := not_le.mpr h2
        have hn420 : ¬(420:ℚ) ≤ s := fun hc => hn280 (le_trans (by norm_num) hc)
        refine ⟨by simp [NEC_CLASSIFICATION_FIXED, bandContains, h0, h1, h2, hn1, hn280, hn420], ?_⟩
        intro b hb hcont
        fin_cases hb
        · simp [bandContains, hn1] at hcont
        · exact classify_nec_fixed_eval₁ h1 h2
        · simp [bandContains, hn280] at hcont
        · simp [bandContains, hn420] at hcont
      · rcases lt_or_le s 420 with h3 | h3
        · have hn1 : ¬ s < 140 := not_lt.mpr (le_trans (by norm_num) h2)
          have hn2 : ¬ s < 280 := not_lt.mpr h2
          have hn420 : ¬(420:ℚ) ≤ s := not_le.mpr h3
          refine ⟨by simp [NEC_CLASSIFICATION_FIXED, bandContains, h0, h2, h3, hn1, hn2, hn420], ?_⟩
          intro b hb hcont
          fin_cases hb
          · simp [bandContains, hn1] at hcont
          · simp [bandContains, hn2] at hcont
          · exact classify_nec_fixed_eval₂ h2 h3
          · simp [bandContains, hn420] at hcont
        · have hn1 : ¬ s < 140 := not_lt.mpr (le_trans (by norm_num) h3)
          have hn2 : ¬ s < 280 := not_lt.mpr (le_trans (by norm_num) h3)
          have hn3 : ¬ s < 420 := not_lt.mpr h3
          refine ⟨by simp [NEC_CLASSIFICATION_FIXED, bandContains, h0, h3, hn1, hn2, hn3], ?_⟩
          intro b hb hcont
          fin_cases hb
          · simp [bandContains, hn1] at hcont
          · simp [bandContains, hn2] at hcont
          · simp [bandContains, hn3] at hcont
          · exact classify_nec_fixed_eval₃ h3

/-- Witness for C2: the boundary value 210 classifies into [210, 280) in
model_handler.py's table, and 140 into [140, 280) in
model_handler_fixed.py's table. -/
theorem nec_classifier_total_c2_witness :
    classify_nec 210 = ("Resistencia Normal", "#f97316", "Uso estructural común") ∧
    classify_nec_fixed 140 = ("Resistencia Normal", "#f97316", "Uso estructural común") := by
  constructor
  · exact (nec_classifier_total_c2.1 210 (by norm_num)).2
      ((210, some 280), ("Resistencia Normal", "#f97316", "Uso estructural común"))
      (by simp [NEC_CLASSIFICATION]) (by with_unfolding_all decide)
  · exact (nec_classifier_total_c2.2 140 (by norm_num)).2
      ((140, some 280), ("Resistencia Normal", "#f97316", "Uso estructural común"))
      (by simp [NEC_CLASSIFICATION_FIXED]) (by with_unfolding_all decide)

/-- Claim C10: for every non-negative (finite) strength value, the standalone
utils.get_nec_color helper returns the same hexadecimal color as the color
component of model_handler.py's classifier; for negative values the two
disagree: the helper returns the lowest band's color while the classifier
returns the fallback color. -/
theorem nec_color_agreement_c10 :
    (∀ s : ℚ, 0 ≤ s → get_nec_color s = (classify_nec s).2.1) ∧
    (∀ s : ℚ, s < 0 →
      get_nec_color s = "#ef4444" ∧ (classify_nec s).2.1 = "#6b7280") := by
  constructor
  · intro s h0
    rcases lt_or_le s 210 with h1 | h1
    · rw [classify_nec_eval₀ h0 h1]
      simp [get_nec_color, h1]
    · rcases lt_or_le s 280 with h2 | h2
      · rw [classify_nec_eval₁ h1 h2]
        simp [get_nec_color, h2, not_lt.mpr h1]
      · rcases lt_or_le s 420 with h3 | h3
        · rw [classify_nec_eval₂ h2 h3]
          simp [get_nec_color, h3, not_lt.mpr (le_trans (by norm_num : (210:ℚ) ≤ 280) h2),
            not_lt.mpr h2]
        · rw [classify_nec_eval₃ h3]
          simp [get_nec_color, not_lt.mpr (le_trans (by norm_num : (210:ℚ) ≤ 420) h3),
            not_lt.mpr (le_trans (by norm_num : (280:ℚ) ≤ 420) h3), not_lt.mpr h3]
  · intro s hneg
    refine ⟨?_, by rw [classify_nec_eval_neg hneg]⟩
    have : s < 210 := lt_trans hneg (by norm_num)
    simp [get_nec_color, this]

/-- Witness for C10 at the concrete strengths 300 and -1. -/
theorem nec_color_agreement_c10_witness :
    get_nec_color 300 = (classify_nec 300).2.1 ∧
    (get_nec_color (-1) = "#ef4444" ∧ (classify_nec (-1)).2.1 = "#6b7280") :=
  ⟨nec_color_agreement_c10.1 300 (by norm_num),
   nec_color_agreement_c10.2 (-1) (by norm_num)⟩

/-- Claim C7: both confidence formulas (model_handler.py line 196 and
model_handler_fixed.py line 181) are monotonically decreasing in the
cross-validation stability value. -/
theorem confidence_antitone_c7 (s₁ s₂ : ℚ) (h : s₁ ≤ s₂) :
    confidence_formula s₂ ≤ confidence_formula s₁ ∧
    confidence_formula_fixed s₂ ≤ confidence_formula_fixed s₁ := by
  constructor
  · unfold confidence_formula
    exact max_le_max le_rfl (min_le_min le_rfl (by linarith))
  · unfold confidence_formula_fixed
    exact max_le_max le_rfl (min_le_min le_rfl (by linarith))

/-- Witness for C7 at the concrete stability values 0 and 1. -/
theorem confidence_antitone_c7_witness :
    confidence_formula 1 ≤ confidence_formula 0 ∧
    confidence_formula_fixed 1 ≤ confidence_formula_fixed 0 :=
  confidence_antitone_c7 0 1 (by norm_num)

/-- Claim C6: the confidence reported with any successful prediction lies
within the configured clamp bounds for every stability value in metadata,
zero and arbitrarily large values included (model_handler.py clamps to
[0.6, 0.95], model_handler_fixed.py to [0.7, 0.95], both inclusive). -/
theorem confidence_clamped_c6 :
    (∀ (model : List ℚ → ℚ) (σ : ℚ) (now : String) (inputs : MixInput)
        (r : PredictionResult), predict_strength model σ now inputs = .ok r →
      3 / 5 ≤ r.confianza_prediccion ∧ r.confianza_prediccion ≤ 19 / 20) ∧
    (∀ (model : List ℚ → ℚ) (σ : ℚ) (now : String) (inputs : MixInput)
        (r : PredictionResult), predict_strength_fixed model σ now inputs = .ok r →
      7 / 10 ≤ r.confianza_prediccion ∧ r.confianza_prediccion ≤ 19 / 20) := by
  constructor
  · intro model σ now inputs r h
    obtain ⟨xs, agua, cemento, escoria, ceniza, edad, _, _, _, _, _, _, _, _, hr⟩ :=
      predict_strength_ok_inv h
    subst hr
    have hb : 3 / 5 ≤ confidence_formula σ ∧ confidence_formula σ ≤ 19 / 20 := by
      unfold confidence_formula
      exact ⟨le_max_left _ _, max_le (by norm_num) (min_le_left _ _)⟩
    constructor
    · exact le_pyRound 3 600 (by norm_num) hb.1
    · exact pyRound_le 3 950 (by norm_num) hb.2
  · intro model σ now inputs r h
    obtain ⟨xs, agua, cemento, escoria, ceniza, edad, _, _, _, _, _, _, _, hr⟩ :=
      predict_strength_fixed_ok_inv h
    subst hr
    have hb : 7 / 10 ≤ confidence_formula_fixed σ ∧ confidence_formula_fixed σ ≤ 19 / 20 := by
      unfold confidence_formula_fixed
      exact ⟨le_max_left _ _, max_le (by norm_num) (min_le_left _ _)⟩
    constructor
    · exact le_pyRound 3 700 (by norm_num) hb.1
    · exact pyRound_le 3 950 (by norm_num) hb.2

/-- Witness for C6: under the pathological stability 1000 the prediction on
the C20 preset carries the clamped confidence 0.6. -/
theorem confidence_clamped_c6_witness :
    predict_strength (fun _ => 300) 1000 "t" presetC20 =
      .ok { resistencia_predicha_kg_cm2 := 300
          , relacion_agua_cemento := 5 / 8
          , total_cementicios_kg_m3 := 350
          , clasificacion_nec := "Alta Resistencia"
          , color_clasificacion := "#22c55e"
          , descripcion_nec := "Estructuras exigentes"
          , confianza_prediccion := 3 / 5
          , edad_ensayo_dias := 28
          , timestamp := "t" } ∧
    (3:ℚ) / 5 ≤ 3 / 5 ∧ (3:ℚ) / 5 ≤ 19 / 20 := by
  have hok : predict_strength (fun _ => 300) 1000 "t" presetC20 =
      .ok { resistencia_predicha_kg_cm2 := 300
          , relacion_agua_cemento := 5 / 8
          , total_cementicios_kg_m3 := 350
          , clasificacion_nec := "Alta Resistencia"
          , color_clasificacion := "#22c55e"
          , descripcion_nec := "Estructuras exigentes"
          , confianza_prediccion := 3 / 5
          , edad_ensayo_dias := 28
          , timestamp := "t" } := by with_unfolding_all decide
  exact ⟨hok, (confidence_clamped_c6.1 _ 1000 "t" presetC20 _ hok).1,
    (confidence_clamped_c6.1 _ 1000 "t" presetC20 _ hok).2⟩

/-- Claim C3: in strict mode (model_handler.py), a mix design missing any
required feature is invalid, and a mix design containing all eight features,
each exactly at its recorded minimum or maximum bound, is valid (range
bounds are inclusive). -/
theorem validator_strict_c3 :
    (∀ (inputs : MixInput) (f : String), f ∈ feature_names → inputs.lookup f = none →
      (validate_inputs inputs).1 = false) ∧
    (∀ inputs : MixInput,
      (∀ f ∈ feature_names, inputs.lookup f ≠ none) →
      (∀ p ∈ inputs, boundaryOk p = true) →
      (validate_inputs inputs).1 = true) := by
  constructor
  · intro inputs f hf hnone
    have hmem : Violation.missing f ∈ validationErrors inputs := by
      unfold validationErrors
      refine List.mem_append_left _ ?_
      refine List.mem_map_of_mem _ ?_
      refine List.mem_filter.mpr ⟨hf, ?_⟩
      simp [hnone]
    have hne : validationErrors inputs ≠ [] := List.ne_nil_of_mem hmem
    cases hb : (validate_inputs inputs).1
    · rfl
    · exact absurd ((validate_inputs_fst_true_iff inputs).mp hb) hne
  · intro inputs hpresent hboundary
    refine (validate_inputs_fst_true_iff inputs).mpr ?_
    refine (validationErrors_eq_nil_iff inputs).mpr ⟨hpresent, ?_⟩
    intro p hp
    have hb := hboundary p hp
    rw [boundaryOk] at hb
    rw [rangeCheck]
    cases htab : VALID_RANGES.lookup p.1 with
    | none => rfl
    | some r =>
      have hbounds := valid_ranges_bounds (p.1, r) (mem_of_lookup_eq_some htab)
      rw [htab] at hb
      replace hb : (decide (p.2 = r.1) || decide (p.2 = r.2)) = true := hb
      simp only [Bool.or_eq_true, decide_eq_true_eq] at hb
      have hin : r.1 ≤ p.2 ∧ p.2 ≤ r.2 := by
        rcases hb with hb | hb <;> rw [hb]
        · exact ⟨le_refl _, hbounds.2⟩
        · exact ⟨hbounds.2, le_refl _⟩
      show (if r.1 ≤ p.2 ∧ p.2 ≤ r.2 then none else some (Violation.outOfRange p.1 p.2 r.1 r.2)) = none
      simp [hin]

set_option maxRecDepth 100000 in
/-- Witness for C3: the all-minima mix design validates, the mix design
missing cement does not. -/
theorem validator_strict_c3_witness :
    (validate_inputs boundaryMixMin).1 = true ∧
    (validate_inputs missingCementMix).1 = false :=
  ⟨validator_strict_c3.2 boundaryMixMin (by with_unfolding_all decide)
      (by with_unfolding_all decide),
   validator_strict_c3.1 missingCementMix "Cemento_kg_m3" (by decide)
      (by with_unfolding_all decide)⟩

set_option maxRecDepth 100000 in
/-- Claim C8: with cement = 0 in the input, the core prediction path
surfaces an error and never reports a water/cement ratio of 0: in
model_handler_fixed.py (where a zero cement value reaches the ratio
computation because validation only warns) the path raises
ZeroDivisionError; in model_handler.py the input is already refused by
strict validation; in neither handler does a cement-zero input produce a
result record. -/
theorem division_by_zero_c8 :
    (∀ (model : List ℚ → ℚ) (σ : ℚ) (now : String) (inputs : MixInput),
      (∀ f ∈ feature_names, inputs.lookup f ≠ none) →
      inputs.lookup "Cemento_kg_m3" = some 0 →
      predict_strength_fixed model σ now inputs = .error .divisionByZero) ∧
    (∀ (model : List ℚ → ℚ) (σ : ℚ) (now : String) (inputs : MixInput),
      inputs.lookup "Cemento_kg_m3" = some 0 →
      predict_strength model σ now inputs =
        .error (.invalidInputs (validate_inputs inputs).2)) ∧
    (∀ (model : List ℚ → ℚ) (σ : ℚ) (now : String) (inputs : MixInput)
        (r : PredictionResult), inputs.lookup "Cemento_kg_m3" = some 0 →
      predict_strength_fixed model σ now inputs ≠ .ok r) := by
  refine ⟨?_, ?_, ?_⟩
  · intro model σ now inputs hpresent hcem
    obtain ⟨xs, hxs⟩ := lookupAll_ok_of_forall hpresent
    cases hA : inputs.lookup "Agua_kg_m3" with
    | none => exact absurd hA (hpresent _ (by decide))
    | some agua =>
      cases hE : inputs.lookup "Escoria_Alto_Horno_kg_m3" with
      | none => exact absurd hE (hpresent _ (by decide))
      | some escoria =>
        cases hC : inputs.lookup "Ceniza_Volante_kg_m3" with
        | none => exact absurd hC (hpresent _ (by decide))
        | some ceniza =>
          cases hD : inputs.lookup "Edad_dias" with
          | none => exact absurd hD (hpresent _ (by decide))
          | some edad =>
            unfold predict_strength_fixed
            rw [hxs, hA, hcem, hE, hC, hD]
            simp
  · intro model σ now inputs hcem
    have hmem : ("Cemento_kg_m3", (0:ℚ)) ∈ inputs := mem_of_lookup_eq_some hcem
    have hrc : rangeCheck ("Cemento_kg_m3", (0:ℚ)) =
        some (.outOfRange "Cemento_kg_m3" 0 150 500) := by
      with_unfolding_all decide
    have hv : Violation.outOfRange "Cemento_kg_m3" 0 150 500 ∈ validationErrors inputs := by
      unfold validationErrors
      exact List.mem_append_right _ (List.mem_filterMap.mpr ⟨_, hmem, hrc⟩)
    have hne : validationErrors inputs ≠ [] := List.ne_nil_of_mem hv
    have hfalse : (validate_inputs inputs).1 = false := by
      cases hb : (validate_inputs inputs).1
      · rfl
      · exact absurd ((validate_inputs_fst_true_iff inputs).mp hb) hne
    unfold predict_strength
    rw [hfalse]
    simp
  · intro model σ now inputs r hcem h
    obtain ⟨xs, agua, cemento, escoria, ceniza, edad, _, _, hcem2, _, _, _, hc0, _⟩ :=
      predict_strength_fixed_ok_inv h
    rw [hcem] at hcem2
    injection hcem2 with hcem3
    exact hc0 hcem3.symm

set_option maxRecDepth 100000 in
/-- Witness for C8 on the C20 preset with cement replaced by 0. -/
theorem division_by_zero_c8_witness :
    predict_strength_fixed (fun _ => 300) (1 / 50) "t" cementZeroMix =
      .error .divisionByZero ∧
    predict_strength (fun _ => 300) (1 / 50) "t" cementZeroMix =
      .error (.invalidInputs (validate_inputs cementZeroMix).2) :=
  ⟨division_by_zero_c8.1 _ _ _ cementZeroMix (by with_unfolding_all decide)
      (by with_unfolding_all decide),
   division_by_zero_c8.2.1 _ _ _ cementZeroMix (by with_unfolding_all decide)⟩

theorem correctNegative_nonneg (x : ℚ) : 0 ≤ correctNegative x := by
  unfold correctNegative
  split
  · exact abs_nonneg x
  · next h => exact le_of_not_lt h

theorem correctNegative_eq_abs (x : ℚ) : correctNegative x = |x| := by
  unfold correctNegative
  split
  · rfl
  · next h => exact (abs_of_nonneg (le_of_not_lt h)).symm

/-- Counterexample to C1 as stated: model_handler.py has no
negative-prediction correction, so an artifact returning -1 on the (strictly
valid) C20 preset yields a result record whose predicted strength is
strictly negative. -/
theorem predict_ratio_c1_counterexample :
    (predict_strength (fun _ => -1) (3 / 200) "t" presetC20).map
      (fun r => decide (r.resistencia_predicha_kg_cm2 < 0)) = .ok true := by
  with_unfolding_all decide

/-- Claim C1 (amended): for every mix design passing strict validation
(which forces cement > 0), model_handler.py's predict_strength returns a
result record whose water/cement-ratio field is water divided by cement
rounded to 3 decimals (hence within 1/2000 of the exact ratio), and whose
strength is non-negative provided the raw model output is non-negative — no
correction exists there; model_handler_fixed.py's predict_strength always
returns a non-negative strength and the same ratio field. -/
theorem predict_ratio_c1_amended :
    (∀ (model : List ℚ → ℚ) (σ : ℚ) (now : String) (inputs : MixInput)
        (agua cemento : ℚ),
      (validate_inputs inputs).1 = true →
      inputs.lookup "Agua_kg_m3" = some agua →
      inputs.lookup "Cemento_kg_m3" = some cemento →
      (∀ v, 0 ≤ model v) →
      0 < cemento ∧
      ∃ r, predict_strength model σ now inputs = .ok r ∧
        0 ≤ r.resistencia_predicha_kg_cm2 ∧
        r.relacion_agua_cemento = pyRound (agua / cemento) 3 ∧
        |r.relacion_agua_cemento - agua / cemento| ≤ 1 / 2000) ∧
    (∀ (model : List ℚ → ℚ) (σ : ℚ) (now : String) (inputs : MixInput)
        (r : PredictionResult), predict_strength_fixed model σ now inputs = .ok r →
      0 ≤ r.resistencia_predicha_kg_cm2 ∧
      ∃ agua cemento, inputs.lookup "Agua_kg_m3" = some agua ∧
        inputs.lookup "Cemento_kg_m3" = some cemento ∧ cemento ≠ 0 ∧
        r.relacion_agua_cemento = pyRound (agua / cemento) 3 ∧
        |r.relacion_agua_cemento - agua / cemento| ≤ 1 / 2000) := by
  constructor
  · intro model σ now inputs agua cemento hvalid hagua hcem hmodel
    obtain ⟨hpresent, hrange⟩ :=
      (validationErrors_eq_nil_iff inputs).mp ((validate_inputs_fst_true_iff inputs).mp hvalid)
    have htabC : VALID_RANGES.lookup "Cemento_kg_m3" = some (150, 500) := by rfl
    have hcr := lookup_in_range_of_valid hrange hcem htabC
    have hcpos : 0 < cemento := lt_of_lt_of_le (by norm_num) hcr.1
    obtain ⟨xs, hxs⟩ := lookupAll_ok_of_forall hpresent
    have hneg : xs.any (fun x => decide (x < 0)) = false := by
      rw [List.any_eq_false]
      intro x hx
      obtain ⟨f, hf, hlook⟩ := lookupAll_mem hxs x hx
      have h0 := lookup_nonneg_of_valid hrange hf hlook
      simp [not_lt.mpr h0]
    obtain ⟨escoria, hE⟩ :=
      Option.ne_none_iff_exists'.mp (hpresent "Escoria_Alto_Horno_kg_m3" (by decide))
    obtain ⟨ceniza, hC⟩ :=
      Option.ne_none_iff_exists'.mp (hpresent "Ceniza_Volante_kg_m3" (by decide))
    obtain ⟨edad, hD⟩ :=
      Option.ne_none_iff_exists'.mp (hpresent "Edad_dias" (by decide))
    refine ⟨hcpos, ⟨_, predict_strength_eq_ok model σ now inputs hvalid hxs hneg
      hagua hcem hE hC hD (ne_of_gt hcpos), ?_, rfl, ?_⟩⟩
    · exact pyRound_nonneg 2 (hmodel xs)
    · show |pyRound (agua / cemento) 3 - agua / cemento| ≤ 1 / 2000
      have h2 := abs_pyRound_sub (agua / cemento) 3
      norm_num at h2 ⊢
      exact h2
  · intro model σ now inputs r h
    obtain ⟨xs, agua, cemento, escoria, ceniza, edad, hxs, hagua, hcem, hesc, hcen,
      hedad, hc0, hr⟩ := predict_strength_fixed_ok_inv h
    subst hr
    refine ⟨pyRound_nonneg 2 (correctNegative_nonneg _),
      agua, cemento, hagua, hcem, hc0, rfl, ?_⟩
    show |pyRound (agua / cemento) 3 - agua / cemento| ≤ 1 / 2000
    have h2 := abs_pyRound_sub (agua / cemento) 3
    norm_num at h2 ⊢
    exact h2

set_option maxRecDepth 100000 in
/-- Witness for C1 (amended) on the C20 preset under a constant-300
artifact. -/
theorem predict_ratio_c1_witness :
    0 < (280:ℚ) ∧
    predict_strength (fun _ => 300) (3 / 200) "t" presetC20 = .ok c1WitnessResult ∧
    0 ≤ c1WitnessResult.resistencia_predicha_kg_cm2 ∧
    c1WitnessResult.relacion_agua_cemento = pyRound (175 / 280) 3 ∧
    |c1WitnessResult.relacion_agua_cemento - 175 / 280| ≤ 1 / 2000 := by
  have h := predict_ratio_c1_amended.1 (fun _ => 300) (3 / 200) "t" presetC20 175 280
    (by with_unfolding_all decide) (by with_unfolding_all decide)
    (by with_unfolding_all decide) (fun v => by norm_num)
  obtain ⟨hpos, r, hok, hnn, hrel, habs⟩ := h
  have hREC : predict_strength (fun _ => 300) (3 / 200) "t" presetC20 = .ok c1WitnessResult := by
    with_unfolding_all decide
  rw [hREC] at hok
  injection hok with hr
  subst hr
  exact ⟨hpos, hREC, hnn, hrel, habs⟩

/-- Counterexample to C9 as stated: model_handler.py (cited lines 176-196)
applies no absolute-value correction, so an artifact returning -50 on the
strictly valid C25 preset yields the raw strength -50 itself — negative — in
the returned record. -/
theorem negative_correction_c9_counterexample :
    (predict_strength (fun _ => -50) (3 / 200) "t" presetC25).map
      (fun r => decide (r.resistencia_predicha_kg_cm2 = -50 ∧
        r.resistencia_predicha_kg_cm2 < 0)) = .ok true := by
  with_unfolding_all decide

/-- Claim C9 (amended): model_handler_fixed.py replaces a negative raw
prediction by its absolute value, so its returned strength is never
negative; model_handler.py applies no such correction and returns the raw
(possibly negative) prediction rounded, logging only a range warning. -/
theorem negative_correction_c9_amended :
    (∀ (model : List ℚ → ℚ) (σ : ℚ) (now : String) (inputs : MixInput)
        (xs : List ℚ) (r : PredictionResult),
      lookupAll inputs feature_names = .ok xs →
      predict_strength_fixed model σ now inputs = .ok r →
      r.resistencia_predicha_kg_cm2 = pyRound |model xs| 2 ∧
      0 ≤ r.resistencia_predicha_kg_cm2) ∧
    (∀ (model : List ℚ → ℚ) (σ : ℚ) (now : String) (inputs : MixInput)
        (xs : List ℚ) (r : PredictionResult),
      lookupAll inputs feature_names = .ok xs →
      predict_strength model σ now inputs = .ok r →
      r.resistencia_predicha_kg_cm2 = pyRound (model xs) 2) := by
  constructor
  · intro model σ now inputs xs r hxs h
    obtain ⟨xs', agua, cemento, escoria, ceniza, edad, hxs', _, _, _, _, _, _, hr⟩ :=
      predict_strength_fixed_ok_inv h
    rw [hxs] at hxs'
    injection hxs' with he
    subst he
    subst hr
    constructor
    · show pyRound (correctNegative (model xs)) 2 = pyRound |model xs| 2
      rw [correctNegative_eq_abs]
    · exact pyRound_nonneg 2 (correctNegative_nonneg _)
  · intro model σ now inputs xs r hxs h
    obtain ⟨xs', agua, cemento, escoria, ceniza, edad, _, hxs', _, _, _, _, _, _, hr⟩ :=
      predict_strength_ok_inv h
    rw [hxs] at hxs'
    injection hxs' with he
    subst he
    subst hr
    rfl

set_option maxRecDepth 100000 in
/-- Witness for C9 (amended): a constant-(-50) artifact on the C20 preset
yields the corrected strength 50 = |-50| under model_handler_fixed.py. -/
theorem negative_correction_c9_witness :
    lookupAll presetC20 feature_names = .ok presetC20Vector ∧
    predict_strength_fixed (fun _ => -50) (1 / 50) "t" presetC20 = .ok c9WitnessResult ∧
    c9WitnessResult.resistencia_predicha_kg_cm2 = pyRound |(-50 : ℚ)| 2 ∧
    0 ≤ c9WitnessResult.resistencia_predicha_kg_cm2 := by
  have hxs : lookupAll presetC20 feature_names = .ok presetC20Vector := by
    with_unfolding_all decide
  have hok : predict_strength_fixed (fun _ => -50) (1 / 50) "t" presetC20 =
      .ok c9WitnessResult := by
    with_unfolding_all decide
  have h := negative_correction_c9_amended.1 (fun _ => -50) (1 / 50) "t" presetC20
    presetC20Vector c9WitnessResult hxs hok
  exact ⟨hxs, hok, h.1, h.2⟩

/-- Counterexample to C4 as stated: the result record embeds the wall-clock
reading (datetime.now().isoformat()) in its timestamp field, so two
invocations of either handler at different instants return different records
even for the same input and the same artifact. -/
theorem determinism_c4_counterexample :
    predict_strength_fixed (fun _ => 300) (1 / 50) "2025-09-04T10:00:00" presetC20 ≠
      predict_strength_fixed (fun _ => 300) (1 / 50) "2025-09-04T10:00:01" presetC20 ∧
    predict_strength (fun _ => 300) (3 / 200) "2025-09-04T10:00:00" presetC20 ≠
      predict_strength (fun _ => 300) (3 / 200) "2025-09-04T10:00:01" presetC20 := by
  constructor <;> with_unfolding_all decide

/-- Claim C4 (amended): both prediction paths are deterministic apart from
the timestamp: for a fixed artifact, stability value and input, two
invocations agree on the outcome and on every field of the result record
except the timestamp, which records the invocation instant. -/
theorem determinism_c4_amended (model : List ℚ → ℚ) (σ : ℚ) (inputs : MixInput)
    (t₁ t₂ : String) :
    (predict_strength model σ t₁ inputs).map stripTimestamp =
      (predict_strength model σ t₂ inputs).map stripTimestamp ∧
    (predict_strength_fixed model σ t₁ inputs).map stripTimestamp =
      (predict_strength_fixed model σ t₂ inputs).map stripTimestamp := by
  constructor
  · unfold predict_strength
    split
    · rfl
    · split
      · rfl
      · split
        · rfl
        · split
          · split
            · rfl
            · rfl
          · rfl
  · unfold predict_strength_fixed
    split
    · rfl
    · split
      · split
        · rfl
        · rfl
      · rfl

theorem rangeCheck_shape {p : String × ℚ} {v : Violation}
    (h : rangeCheck p = some v) : ∃ lo hi, v = Violation.outOfRange p.1 p.2 lo hi := by
  rw [rangeCheck] at h
  split at h
  · next r heq =>
    split at h
    · cases h
    · injection h with h2
      exact ⟨r.1, r.2, h2.symm⟩
  · cases h

theorem rangeCheck_feature {p : String × ℚ} {v : Violation}
    (h : rangeCheck p = some v) : v.feature = p.1 := by
  obtain ⟨lo, hi, hv⟩ := rangeCheck_shape h
  subst hv
  rfl

theorem rangeCheckFixed_shape {p : String × ℚ} {v : Violation}
    (h : rangeCheckFixed p = some v) :
    ∃ lo hi, v = Violation.outOfRange p.1 p.2 lo hi := by
  rw [rangeCheckFixed] at h
  split at h
  · next r heq =>
    dsimp only at h
    split at h
    · cases h
    · injection h with h2
      exact ⟨_, _, h2.symm⟩
  · cases h

theorem rangeCheckFixed_feature {p : String × ℚ} {v : Violation}
    (h : rangeCheckFixed p = some v) : v.feature = p.1 := by
  obtain ⟨lo, hi, hv⟩ := rangeCheckFixed_shape h
  subst hv
  rfl

theorem filterMap_check_feature_sublist (check : String × ℚ → Option Violation)
    (hfeat : ∀ p v, check p = some v → Violation.feature v = p.1) :
    ∀ inputs : MixInput,
      List.Sublist ((inputs.filterMap check).map Violation.feature)
        (inputs.map Prod.fst) := by
  intro inputs
  induction inputs with
  | nil => simp
  | cons p tl ih =>
    rw [List.filterMap_cons]
    cases hc : check p with
    | none =>
      simp only [List.map_cons]
      exact ih.cons _
    | some v =>
      simp only [List.map_cons]
      rw [hfeat p v hc]
      exact ih.cons₂ _

set_option maxRecDepth 100000 in
theorem feature_names_pairwise :
    feature_names.Pairwise (fun a b => canonIndex a < canonIndex b) := by
  with_unfolding_all decide

set_option maxRecDepth 100000 in
/-- Counterexample to C5 as stated: with water listed before cement and both
out of range, the reported violations end with the water violation before
the cement violation — the caller's input order, not the canonical feature
order (in which cement comes first). -/
theorem violation_order_c5_counterexample :
    ¬ ((validate_inputs waterFirstMix).2.map
        (fun v => canonIndex v.feature)).Pairwise (· ≤ ·) := by
  with_unfolding_all decide

/-- Claim C5 (amended): the violation list of both validators is the
missing-feature violations, in canonical feature order, followed by the
out-of-range violations in the order of the caller's input mapping. -/
theorem violation_order_c5_amended (inputs : MixInput) :
    (∃ ms rs, (validate_inputs inputs).2 = ms ++ rs ∧
      (∀ v ∈ ms, ∃ f, v = Violation.missing f) ∧
      (ms.map Violation.feature).Pairwise (fun a b => canonIndex a < canonIndex b) ∧
      (∀ v ∈ rs, ∃ f val lo hi, v = Violation.outOfRange f val lo hi) ∧
      List.Sublist (rs.map Violation.feature) (inputs.map Prod.fst)) ∧
    (∃ ms rs, (validate_inputs_fixed inputs).2 = ms ++ rs ∧
      (∀ v ∈ ms, ∃ f, v = Violation.missing f) ∧
      (ms.map Violation.feature).Pairwise (fun a b => canonIndex a < canonIndex b) ∧
      (∀ v ∈ rs, ∃ f val lo hi, v = Violation.outOfRange f val lo hi) ∧
      List.Sublist (rs.map Violation.feature) (inputs.map Prod.fst)) := by
  constructor
  · refine ⟨(feature_names.filter (fun f => (inputs.lookup f).isNone)).map Violation.missing,
      inputs.filterMap rangeCheck, rfl, ?_, ?_, ?_, ?_⟩
    · intro v hv
      obtain ⟨f, _, hf⟩ := List.mem_map.mp hv
      exact ⟨f, hf.symm⟩
    · have hmm : ((feature_names.filter (fun f => (inputs.lookup f).isNone)).map
          Violation.missing).map Violation.feature =
          feature_names.filter (fun f => (inputs.lookup f).isNone) := by
        rw [List.map_map]
        exact List.map_id _
      rw [hmm]
      exact feature_names_pairwise.sublist (List.filter_sublist _)
    · intro v hv
      obtain ⟨p, hp, hcheck⟩ := List.mem_filterMap.mp hv
      obtain ⟨lo, hi, hv2⟩ := rangeCheck_shape hcheck
      exact ⟨p.1, p.2, lo, hi, hv2⟩
    · exact filterMap_check_feature_sublist rangeCheck (fun p v => rangeCheck_feature) inputs
  · refine ⟨(feature_names.filter (fun f => (inputs.lookup f).isNone)).map Violation.missing,
      inputs.filterMap rangeCheckFixed, rfl, ?_, ?_, ?_, ?_⟩
    · intro v hv
      obtain ⟨f, _, hf⟩ := List.mem_map.mp hv
      exact ⟨f, hf.symm⟩
    · have hmm : ((feature_names.filter (fun f => (inputs.lookup f).isNone)).map
          Violation.missing).map Violation.feature =
          feature_names.filter (fun f => (inputs.lookup f).isNone) := by
        rw [List.map_map]
        exact List.map_id _
      rw [hmm]
      exact feature_names_pairwise.sublist (List.filter_sublist _)
    · intro v hv
      obtain ⟨p, hp, hcheck⟩ := List.mem_filterMap.mp hv
      obtain ⟨lo, hi, hv2⟩ := rangeCheckFixed_shape hcheck
      exact ⟨p.1, p.2, lo, hi, hv2⟩
    · exact filterMap_check_feature_sublist rangeCheckFixed
        (fun p v => rangeCheckFixed_feature) inputs

end HormigonML
